import Mathlib

/-!
Verification development for the connect-hub biometric verification service
(`internal/services` face verification service and
`internal/handlers/verification_handler.go`).

The Go code is shallowly embedded: `float64` arithmetic is modelled by exact
real arithmetic over `ℝ`, `float32` embedding vectors by `List ℝ`, byte
slices by `List ℕ`, and the pluggable external capabilities (the image
decoder of `image.Decode` and the go-face recognizer backend) by abstract
function parameters collected in an `Env` structure.  Wall-clock fields
(timestamps, processing time, timeouts) are not modelled; the concurrent
fan-out of `VerifyVideo` is linearised into its deterministic data flow.
-/

namespace ConnectHub

open scoped Classical

/-- One pixel as observed through Go's `color.Color.RGBA()` accessor: four
alpha-premultiplied channels, each a value in `0..65535` held in a `uint32`
(modelled by `ℕ`). -/
structure Pixel where
  r : ℕ
  g : ℕ
  b : ℕ
  a : ℕ

/-- Go's `image.Rectangle`: the bounds of an image, `Min` and `Max` points
with `int` coordinates (modelled by `ℤ`). -/
structure Rect where
  minX : ℤ
  minY : ℤ
  maxX : ℤ
  maxY : ℤ
deriving DecidableEq

/-- `image.Rectangle.Dx`. -/
def Rect.Dx (rc : Rect) : ℤ := rc.maxX - rc.minX

/-- `image.Rectangle.Dy`. -/
def Rect.Dy (rc : Rect) : ℤ := rc.maxY - rc.minY

/-- Go's `image.Image`: bounds plus the `At` accessor (read through
`RGBA()`, so pixel channels are the 16-bit-scaled values). -/
structure Image where
  bounds : Rect
  At : ℤ → ℤ → Pixel

instance : Inhabited Image := ⟨⟨⟨0, 0, 0, 0⟩, fun _ _ => ⟨0, 0, 0, 0⟩⟩⟩

/-- Number of iterations of a Go loop `for v := lo; v < hi; v += step`
(for a positive `step`). -/
def stepCount (lo hi step : ℤ) : ℕ :=
  if lo < hi ∧ 0 < step then ((hi - lo - 1) / step).toNat + 1 else 0

/-- The values taken by the loop variable of
`for v := lo; v < hi; v += step`. -/
def stepRange (lo hi step : ℤ) : List ℤ :=
  (List.range (stepCount lo hi step)).map (fun i => lo + step * (i : ℤ))

/-- `calculateFrameMotion`: per-pixel color difference between two frames,
sampled every 4th pixel, averaged and normalized by 65535.  Returns 0 when
the bounds differ or no pixel is sampled. -/
noncomputable def calculateFrameMotion (img1 img2 : Image) : ℝ :=
  if img1.bounds = img2.bounds then
    let ys := stepRange img1.bounds.minY img1.bounds.maxY 4
    let xs := stepRange img1.bounds.minX img1.bounds.maxX 4
    let totalDiff : ℝ :=
      (ys.map (fun y =>
        (xs.map (fun x =>
          let p1 := img1.At x y
          let p2 := img2.At x y
          |((p1.r : ℝ)) - ((p2.r : ℝ))| + |((p1.g : ℝ)) - ((p2.g : ℝ))| +
            |((p1.b : ℝ)) - ((p2.b : ℝ))|)).sum)).sum
    let pixelCount : ℕ := ys.length * xs.length
    if pixelCount = 0 then 0 else totalDiff / (pixelCount : ℝ) / 65535
  else 0

/-- `calculateMotionScore`: average motion between consecutive frames,
scaled by 10 and capped at 1. -/
noncomputable def calculateMotionScore (frames : List Image) : ℝ :=
  if frames.length < 2 then 0
  else
    let motions := List.zipWith calculateFrameMotion frames frames.tail
    if motions.length = 0 then 0
    else min (motions.sum / (motions.length : ℝ) * 10) 1

/-- The eight neighbour offsets `(dx, dy)` visited by the texture loop of
`calculateFrameTexture` (the `dx = dy = 0` centre is skipped). -/
def neighborOffsets : List (ℤ × ℤ) :=
  [(-1, -1), (0, -1), (1, -1), (-1, 0), (1, 0), (-1, 1), (0, 1), (1, 1)]

/-- The summed squared channel differences between the pixel at `(x, y)` and
its eight neighbours (the `variance` accumulator of one iteration of
`calculateFrameTexture`'s inner loop). -/
noncomputable def pixelNeighborVariance (img : Image) (x y : ℤ) : ℝ :=
  (neighborOffsets.map (fun d =>
    let c := img.At x y
    let n := img.At (x + d.1) (y + d.2)
    ((c.r : ℝ) - (n.r : ℝ)) ^ 2 + ((c.g : ℝ) - (n.g : ℝ)) ^ 2 +
      ((c.b : ℝ) - (n.b : ℝ)) ^ 2)).sum

/-- `calculateFrameTexture`: local variance averaged over a grid sampled
every 2nd pixel strictly inside the bounds, normalized by `1e10`.  The Go
`neighborCount` guard is always `8 > 0`, so it is elided. -/
noncomputable def calculateFrameTexture (img : Image) : ℝ :=
  let ys := stepRange (img.bounds.minY + 1) (img.bounds.maxY - 1) 2
  let xs := stepRange (img.bounds.minX + 1) (img.bounds.maxX - 1) 2
  let totalVariance : ℝ :=
    (ys.map (fun y =>
      (xs.map (fun x =>
        pixelNeighborVariance img x y / (neighborOffsets.length : ℝ))).sum)).sum
  let pixelCount : ℕ := ys.length * xs.length
  if pixelCount = 0 then 0
  else totalVariance / (pixelCount : ℝ) / (10 : ℝ) ^ 10

/-- `calculateTextureConsistency`: one minus the (scaled, capped) variance of
the per-frame texture signature across frames. -/
noncomputable def calculateTextureConsistency (frames : List Image) : ℝ :=
  if frames.length = 0 then 0
  else
    let textureScores := frames.map calculateFrameTexture
    let mean := textureScores.sum / (textureScores.length : ℝ)
    let variance :=
      (textureScores.map (fun score => (score - mean) ^ 2)).sum /
        (textureScores.length : ℝ)
    1 - min (variance * 100) 1

/-- `calculateAverageColor`: the mean RGB of an image, each channel first
normalized by 65535, sampled every 4th pixel. -/
noncomputable def calculateAverageColor (img : Image) : ℝ × ℝ × ℝ :=
  let ys := stepRange img.bounds.minY img.bounds.maxY 4
  let xs := stepRange img.bounds.minX img.bounds.maxX 4
  let pixelCount : ℕ := ys.length * xs.length
  if pixelCount = 0 then (0, 0, 0)
  else
    ((ys.map (fun y => (xs.map (fun x => ((img.At x y).r : ℝ) / 65535)).sum)).sum /
        (pixelCount : ℝ),
     (ys.map (fun y => (xs.map (fun x => ((img.At x y).g : ℝ) / 65535)).sum)).sum /
        (pixelCount : ℝ),
     (ys.map (fun y => (xs.map (fun x => ((img.At x y).b : ℝ) / 65535)).sum)).sum /
        (pixelCount : ℝ))

/-- `calculateColorConsistency`: one minus the (scaled, capped) variance of
the per-frame mean color across frames. -/
noncomputable def calculateColorConsistency (frames : List Image) : ℝ :=
  if frames.length = 0 then 0
  else
    let frameColors := frames.map calculateAverageColor
    let n : ℝ := (frameColors.length : ℝ)
    let meanR := (frameColors.map (fun c => c.1)).sum / n
    let meanG := (frameColors.map (fun c => c.2.1)).sum / n
    let meanB := (frameColors.map (fun c => c.2.2)).sum / n
    let variance :=
      (frameColors.map (fun c =>
        (c.1 - meanR) ^ 2 + (c.2.1 - meanG) ^ 2 + (c.2.2 - meanB) ^ 2)).sum / n
    1 - min (variance * 10) 1

/-- Go's `x >= y` comparison on `float64`, as a `Bool` over the real
model. -/
noncomputable def boolGe (x y : ℝ) : Bool :=
  @decide (y ≤ x) (Classical.propDecidable _)

/-- `models.LivenessResult`. -/
structure LivenessResult where
  isLive : Bool
  confidence : ℝ
  method : String
  score : ℝ

/-- `detectLiveness`: fewer than 2 frames yields a non-live zero result and
a nil error; otherwise the three signals are combined with weights
0.4/0.4/0.2 and compared against the liveness threshold.  The Go function's
error is always nil, modelled by the `Option String` component. -/
noncomputable def detectLiveness (livenessThreshold : ℝ) (frames : List Image) :
    LivenessResult × Option String :=
  if frames.length < 2 then
    (⟨false, 0, "motion_texture_analysis", 0⟩, none)
  else
    let motionScore := calculateMotionScore frames
    let textureScore := calculateTextureConsistency frames
    let colorScore := calculateColorConsistency frames
    let totalScore := motionScore * 0.4 + textureScore * 0.4 + colorScore * 0.2
    (⟨boolGe totalScore livenessThreshold, min totalScore 1,
      "motion_texture_analysis", totalScore⟩, none)

/-- The accumulating loop of `cosineSimilarity`: the dot product of two
`float32` vectors (summed in `float64`), used for `dotProduct`, `normA` and
`normB`. -/
def listDot (a b : List ℝ) : ℝ := (List.zipWith (· * ·) a b).sum

/-- `cosineSimilarity`: 0 when the lengths differ or either vector has zero
squared norm, otherwise the normalized dot product. -/
noncomputable def cosineSimilarity (a b : List ℝ) : ℝ :=
  if a.length ≠ b.length then 0
  else
    let dotProduct := listDot a b
    let normA := listDot a a
    let normB := listDot b b
    if normA = 0 ∨ normB = 0 then 0
    else dotProduct / (Real.sqrt normA * Real.sqrt normB)

/-- `models.FaceVector` (`CreatedAt` modelled as an opaque counter). -/
structure FaceVector where
  userID : String
  vector : List ℝ
  createdAt : ℕ
  version : String

/-- The in-memory `faceVectors` map `identity → enrolled vectors`, modelled
as an association list. -/
abbrev Store : Type := List (String × List FaceVector)

/-- Go map read `userVectors, exists := s.faceVectors[userID]`. -/
def Store.find (store : Store) (userID : String) : Option (List FaceVector) :=
  List.lookup userID store

/-- `checkForDuplicates`: 0 for an identity absent from the store or with an
empty enrollment list; otherwise a fold that keeps the largest similarity
seen so far, starting from 0.  The Go error result is always nil. -/
noncomputable def checkForDuplicates (store : Store) (userID : String)
    (newVector : List ℝ) : ℝ × Option String :=
  match store.find userID with
  | none => (0, none)
  | some userVectors =>
    if userVectors.length = 0 then (0, none)
    else
      (userVectors.foldl (fun maxSimilarity storedVector =>
        let similarity := cosineSimilarity newVector storedVector.vector
        if maxSimilarity < similarity then similarity else maxSimilarity) 0, none)

/-- The external capabilities of the service: the image decoder consulted by
`extractFramesFromVideo` (`image.Decode`) and the go-face recognizer pipeline
of `generateFaceVector` (face detection plus descriptor extraction), both
treated as pluggable deterministic backends. -/
structure Env where
  decode : List ℕ → Option Image
  recognize : Image → Except String (List ℝ)

/-- The 640×480 gradient placeholder synthesized by `extractFramesFromVideo`
when the payload is not decodable as an image.  Stored channels are 8-bit and
read back through `RGBA()` as `c * 0x101`; alpha is 255. -/
def placeholderImage : Image where
  bounds := ⟨0, 0, 640, 480⟩
  At := fun x y =>
    if 0 ≤ x ∧ x < 640 ∧ 0 ≤ y ∧ y < 480 then
      ⟨(x * 255 / 640).toNat * 257, (y * 255 / 480).toNat * 257,
        128 * 257, 255 * 257⟩
    else ⟨0, 0, 0, 0⟩

/-- One simulated motion frame of `extractFramesFromVideo`: pixel channels
get `i * 2` noise added modulo 65535, are truncated to 8 bits
(`uint8(v >> 8)`) on `SetRGBA`, and read back as `c * 0x101`.  Pixels outside
the written `[0, Dx) × [0, Dy)` region are the RGBA zero value. -/
def frameVariation (img : Image) (i : ℕ) : Image where
  bounds := img.bounds
  At := fun x y =>
    if 0 ≤ x ∧ x < img.bounds.Dx ∧ 0 ≤ y ∧ y < img.bounds.Dy then
      let p := img.At x y
      let noise := i * 2
      ⟨(p.r + noise) % 65535 / 256 * 257, (p.g + noise) % 65535 / 256 * 257,
        (p.b + noise) % 65535 / 256 * 257, p.a / 256 * 257⟩
    else ⟨0, 0, 0, 0⟩

/-- `extractFramesFromVideo`: decode the payload as an image, fall back to
the gradient placeholder when decoding fails, then append 4 simulated motion
variations (`i = 1..4`).  Every path returns a nil error. -/
def extractFramesFromVideo (decode : List ℕ → Option Image)
    (videoData : List ℕ) : List Image × Option String :=
  let img := match decode videoData with
    | some decoded => decoded
    | none => placeholderImage
  (img :: (List.range 4).map (fun i => frameVariation img (i + 1)), none)

/-- `generateFaceVector`: RGBA conversion, face detection and descriptor
extraction are all performed by the external go-face backend, modelled by
the `recognize` capability (failing with `no faces detected` or a
descriptor-generation error exactly when the backend does). -/
def generateFaceVector (recognize : Image → Except String (List ℝ))
    (img : Image) : Except String (List ℝ) :=
  recognize img

/-- `config.Config`, restricted to the fields the verification pipeline
reads (defaults 0.85 and 0.75). -/
structure Config where
  livenessThreshold : ℝ
  similarityThreshold : ℝ

/-- `models.VerificationRequest`. -/
structure VerificationRequest where
  videoData : List ℕ
  userID : String
  sessionID : String

/-- `models.VerificationResult`, restricted to the data-flow fields
(verification id, timestamp and processing time are wall-clock values and
are not modelled). -/
structure VerificationResult where
  userID : String
  verified : Bool
  confidence : ℝ
  livenessScore : ℝ
  error : Option String

/-- The post-extraction policy of `VerifyVideo`, reached once liveness
detection and face-vector generation have both succeeded: early return on a
failed liveness check, duplicate check when an identity is claimed
(`checkForDuplicates` never errs, so its error branch leaves the zero
values), and the first-time-registration branch otherwise. -/
noncomputable def verifyCore (cfg : Config) (store : Store) (userID : String)
    (frames : List Image) (faceVector : List ℝ) : VerificationResult :=
  let livenessResult := (detectLiveness cfg.livenessThreshold frames).1
  if livenessResult.isLive then
    if userID ≠ "" then
      match checkForDuplicates store userID faceVector with
      | (confidence, none) =>
        { userID := userID, verified := boolGe confidence cfg.similarityThreshold,
          confidence := confidence, livenessScore := livenessResult.score,
          error := none }
      | (_, some _) =>
        { userID := userID, verified := false, confidence := 0,
          livenessScore := livenessResult.score, error := none }
    else
      { userID := userID, verified := true, confidence := 1,
        livenessScore := livenessResult.score, error := none }
  else
    { userID := userID, verified := false, confidence := 0,
      livenessScore := livenessResult.score, error := none }

/-- `VerifyVideo`, linearised: frame extraction, then liveness detection and
face-vector generation (run concurrently in Go; an error from either
short-circuits with a non-nil error), then `verifyCore`.  The second
component is the Go error return. -/
noncomputable def VerifyVideo (env : Env) (cfg : Config) (store : Store)
    (req : VerificationRequest) : VerificationResult × Option String :=
  match (extractFramesFromVideo env.decode req.videoData).1 with
  | [] =>
    ({ userID := req.userID, verified := false, confidence := 0,
       livenessScore := 0, error := some ("No frames extracted from video") },
     some ("no frames extracted"))
  | firstFrame :: rest =>
    match generateFaceVector env.recognize firstFrame with
    | .error e =>
      ({ userID := req.userID, verified := false, confidence := 0,
         livenessScore := 0, error := some ("Face vector generation failed: " ++ e) },
       some e)
    | .ok faceVector =>
      (verifyCore cfg store req.userID (firstFrame :: rest) faceVector, none)

/-- Appending an enrollment to the `faceVectors` map
(`s.faceVectors[userID] = append(s.faceVectors[userID], vector)`). -/
def Store.append (store : Store) (userID : String) (v : FaceVector) : Store :=
  match List.lookup userID store with
  | none => (userID, [v]) :: store
  | some _ => store.map (fun p => if p.1 = userID then (p.1, p.2 ++ [v]) else p)

/-- `RegisterFace`: verify the video with the claimed identity, fail when
the result is not verified, then re-extract frames, regenerate the face
vector and append it to the store.  Persistence (`saveFaceVectors`) is not
modelled; the returned store is the updated in-memory map. -/
noncomputable def RegisterFace (env : Env) (cfg : Config) (store : Store)
    (userID : String) (videoData : List ℕ) : Store × Option String :=
  match VerifyVideo env cfg store ⟨videoData, userID, ""⟩ with
  | (_, some e) => (store, some e)
  | (result, none) =>
    if result.verified then
      match (extractFramesFromVideo env.decode videoData).1 with
      | [] => (store, some ("no frames extracted"))
      | firstFrame :: _ =>
        match generateFaceVector env.recognize firstFrame with
        | .error e => (store, some e)
        | .ok faceVector =>
          (store.append userID ⟨userID, faceVector, 0, "1.0"⟩, none)
    else (store, some ("face verification failed"))

/-- `multipart.FileHeader`, restricted to the fields `validateVideoFile`
reads: `Size` (an `int64`, modelled by `ℤ`) and the `Content-Type` header. -/
structure FileHeader where
  size : ℤ
  contentType : String

/-- The content-type allow-list of `validateVideoFile`. -/
def validTypes : List String :=
  ["video/webm", "video/mp4", "video/avi", "video/mov", "video/quicktime",
   "image/jpeg", "image/png"]

/-- `VerificationHandler.validateVideoFile`: too large (over `50*1024*1024`
bytes), too small (under 1024 bytes), or a content type outside the
allow-list each yield an error; `none` means the file is accepted. -/
def validateVideoFile (file : FileHeader) : Option String :=
  if file.size > 50 * 1024 * 1024 then some ("video file too large")
  else if file.size < 1024 then some ("video file too small")
  else if file.contentType ∈ validTypes then none
  else some ("invalid file type")

/-- `VerificationHandler.isValidUserID`: 1 to 64 characters, each
alphanumeric, hyphen or underscore. -/
def isValidUserID (userID : String) : Bool :=
  decide (1 ≤ userID.length) && decide (userID.length ≤ 64) &&
    userID.toList.all (fun c =>
      (decide ('a' ≤ c) && decide (c ≤ 'z')) ||
      (decide ('A' ≤ c) && decide (c ≤ 'Z')) ||
      (decide ('0' ≤ c) && decide (c ≤ '9')) ||
      decide (c = '-') || decide (c = '_'))

/-- The HTTP outcome of `VerificationHandler.VerifyVideo` (status plus the
machine-readable `code`, or the successful result). -/
inductive HandlerResponse where
  | ok (result : VerificationResult)
  | badRequest (code : String)
  | internalError (code : String)

/-- `VerificationHandler.VerifyVideo`, data flow: missing file, file
validation, user-id validation, then the face service (an abstract
`service` parameter standing for `faceService.VerifyVideo`; the outer 30s
timeout is wall-clock and not modelled).  File validation runs before the
file is read and before the service is consulted. -/
def handleVerifyVideo (service : VerificationRequest → VerificationResult × Option String)
    (files : List FileHeader) (videoData : List ℕ) (userID sessionID : String) :
    HandlerResponse :=
  match files with
  | [] => .badRequest ("MISSING_VIDEO_FILE")
  | file :: _ =>
    match validateVideoFile file with
    | some _ => .badRequest ("INVALID_VIDEO_FILE")
    | none =>
      if userID ≠ "" ∧ isValidUserID userID = false then
        .badRequest ("INVALID_USER_ID")
      else
        match service ⟨videoData, userID, sessionID⟩ with
        | (result, none) => .ok result
        | (_, some _) => .internalError ("VERIFICATION_FAILED")

/-- A keyed AES-GCM instance, as produced inside `encryptData`/`decryptData`
from `cipher.NewGCM(aes.NewCipher(deriveKey(config.EncryptionKey)))`: both
sides derive the same key from the configured secret via scrypt, so one
abstract authenticated cipher stands for both.  `sealBytes nonce plaintext` is
`gcm.Seal(nil, nonce, plaintext, nil)` and `openBytes nonce ciphertext` is
`gcm.Open(nil, nonce, ciphertext, nil)` (failing on tampered input). -/
structure GCM where
  nonceSize : ℕ
  sealBytes : List ℕ → List ℕ → List ℕ
  openBytes : List ℕ → List ℕ → Except String (List ℕ)

/-- `encryptData`: a fresh random nonce (here a parameter, since randomness
is external) is prepended to the sealed ciphertext
(`gcm.Seal(nonce, nonce, data, nil)`). -/
def encryptData (gcm : GCM) (nonce data : List ℕ) : List ℕ :=
  nonce ++ gcm.sealBytes nonce data

/-- `decryptData`: reject ciphertext shorter than the nonce, otherwise split
off the nonce and open the remainder. -/
def decryptData (gcm : GCM) (data : List ℕ) : Except String (List ℕ) :=
  if data.length < gcm.nonceSize then .error ("ciphertext too short")
  else gcm.openBytes (data.take gcm.nonceSize) (data.drop gcm.nonceSize)

/-! ## Basic lemmas about the embedded definitions -/

lemma boolGe_true_iff (x y : ℝ) : boolGe x y = true ↔ y ≤ x := by
  simp [boolGe]

lemma boolGe_false_iff (x y : ℝ) : boolGe x y = false ↔ ¬ y ≤ x := by
  simp [boolGe]

lemma sum_map_nonneg {α : Type} (l : List α) (f : α → ℝ)
    (h : ∀ a ∈ l, 0 ≤ f a) : 0 ≤ (l.map f).sum := by
  refine List.sum_nonneg ?_
  intro x hx
  obtain ⟨a, ha, rfl⟩ := List.mem_map.1 hx
  exact h a ha

lemma one_sub_min_nonneg (x : ℝ) : 0 ≤ 1 - min x 1 :=
  sub_nonneg.2 (min_le_right _ _)

lemma one_sub_min_le_one (x : ℝ) (hx : 0 ≤ x) : 1 - min x 1 ≤ 1 := by
  have h := le_min hx zero_le_one
  linarith

lemma calculateFrameMotion_nonneg (img1 img2 : Image) :
    0 ≤ calculateFrameMotion img1 img2 := by
  simp only [calculateFrameMotion]
  split_ifs with h1 h2
  · exact le_refl 0
  · refine div_nonneg (div_nonneg ?_ (by positivity)) (by norm_num)
    exact sum_map_nonneg _ _ (fun y _ 
      => sum_map_nonneg _ _ (fun x _ => by positivity))
  · exact le_refl 0

lemma zipWith_motion_sum_nonneg (l1 l2 : List Image) :
    0 ≤ (List.zipWith calculateFrameMotion l1 l2).sum := by
  induction l1 generalizing l2 with
  | nil => simp
  | cons a t ih =>
    cases l2 with
    | nil => simp
    | cons b t2 =>
      simp only [List.zipWith_cons_cons, List.sum_cons]
      have h1 := calculateFrameMotion_nonneg a b
      have h2 := ih t2
      linarith

lemma calculateMotionScore_nonneg (frames : List Image) :
    0 ≤ calculateMotionScore frames := by
  simp only [calculateMotionScore]
  split_ifs with h1 h2
  · exact le_refl 0
  · exact le_refl 0
  · refine le_min ?_ zero_le_one
    exact mul_nonneg (div_nonneg (zipWith_motion_sum_nonneg _ _) (by positivity))
      (by norm_num)

lemma calculateMotionScore_le_one (frames : List Image) :
    calculateMotionScore frames ≤ 1 := by
  simp only [calculateMotionScore]
  split_ifs with h1 h2
  · exact zero_le_one
  · exact zero_le_one
  · exact min_le_right _ _

lemma calculateTextureConsistency_nonneg (frames : List Image) :
    0 ≤ calculateTextureConsistency frames := by
  simp only [calculateTextureConsistency]
  split_ifs with h1
  · exact le_refl 0
  · exact one_sub_min_nonneg _

lemma calculateTextureConsistency_le_one (frames : List Image) :
    calculateTextureConsistency frames ≤ 1 := by
  simp only [calculateTextureConsistency]
  split_ifs with h1
  · exact zero_le_one
  · refine one_sub_min_le_one _ ?_
    refine mul_nonneg (div_nonneg ?_ (by positivity)) (by norm_num)
    exact sum_map_nonneg _ _ (fun a _ => sq_nonneg _)

lemma calculateColorConsistency_nonneg (frames : List Image) :
    0 ≤ calculateColorConsistency frames := by
  simp only [calculateColorConsistency]
  split_ifs with h1
  · exact le_refl 0
  · exact one_sub_min_nonneg _

lemma calculateColorConsistency_le_one (frames : List Image) :
    calculateColorConsistency frames ≤ 1 := by
  simp only [calculateColorConsistency]
  split_ifs with h1
  · exact zero_le_one
  · refine one_sub_min_le_one _ ?_
    refine mul_nonneg (div_nonneg ?_ (by positivity)) (by norm_num)
    exact sum_map_nonneg _ _ (fun a _ => by positivity)

lemma detectLiveness_score_nonneg (t : ℝ) (frames : List Image) :
    0 ≤ (detectLiveness t frames).1.score := by
  have hm := calculateMotionScore_nonneg frames
  have ht := calculateTextureConsistency_nonneg frames
  have hc := calculateColorConsistency_nonneg frames
  simp only [detectLiveness]
  split_ifs with h1
  · exact le_refl 0
  · dsimp only
    nlinarith

lemma detectLiveness_score_le_one (t : ℝ) (frames : List Image) :
    (detectLiveness t frames).1.score ≤ 1 := by
  have hm := calculateMotionScore_le_one frames
  have ht := calculateTextureConsistency_le_one frames
  have hc := calculateColorConsistency_le_one frames
  have hm0 := calculateMotionScore_nonneg frames
  have ht0 := calculateTextureConsistency_nonneg frames
  have hc0 := calculateColorConsistency_nonneg frames
  simp only [detectLiveness]
  split_ifs with h1
  · exact zero_le_one
  · dsimp only
    nlinarith

lemma detectLiveness_err (t : ℝ) (frames : List Image) :
    (detectLiveness t frames).2 = none := by
  simp only [detectLiveness]
  split_ifs <;> rfl

lemma listDot_self_eq_map (a : List ℝ) :
    listDot a a = (a.map (fun x => x * x)).sum := by
  unfold listDot
  induction a with
  | nil => simp
  | cons x t ih => simp [List.zipWith_cons_cons, ih]

lemma listDot_self_nonneg (a : List ℝ) : 0 ≤ listDot a a := by
  rw [listDot_self_eq_map]
  exact sum_map_nonneg _ _ (fun x _ => mul_self_nonneg x)

/-- All-zero vectors, the condition under which the code's `normA == 0`
test fires. -/
def allZero (v : List ℝ) : Prop := ∀ x ∈ v, x = 0

lemma listDot_self_eq_zero_iff (a : List ℝ) : listDot a a = 0 ↔ allZero a := by
  rw [listDot_self_eq_map]
  induction a with
  | nil => simp [allZero]
  | cons x t ih =>
    simp only [List.map_cons, List.sum_cons, allZero, List.mem_cons]
    constructor
    · intro h
      have hx : 0 ≤ x * x := mul_self_nonneg x
      have ht : 0 ≤ (t.map (fun x => x * x)).sum :=
        sum_map_nonneg _ _ (fun y _ => mul_self_nonneg y)
      have hx0 : x * x = 0 := by linarith
      have hxz : x = 0 := by nlinarith
      have htz : (t.map (fun x => x * x)).sum = 0 := by linarith
      intro y hy
      rcases hy with hy | hy
      · exact hy ▸ hxz
      · exact (ih.1 htz) y hy
    · intro h
      have hx : x = 0 := h x (Or.inl rfl)
      have ht : (t.map (fun x => x * x)).sum = 0 :=
        ih.2 (fun y hy => h y (Or.inr hy))
      rw [hx, ht]
      ring

lemma listDot_eq_sum_range (a b : List ℝ) :
    listDot a b = ∑ i ∈ Finset.range (min a.length b.length),
      a.getD i 0 * b.getD i 0 := by
  unfold listDot
  induction a generalizing b with
  | nil => simp
  | cons x t ih =>
    cases b with
    | nil => simp
    | cons y s =>
      simp only [List.zipWith_cons_cons, List.sum_cons, List.length_cons]
      rw [Nat.succ_min_succ, Finset.sum_range_succ']
      simp only [List.getD_cons_succ, List.getD_cons_zero]
      rw [ih s]
      ring

lemma cosineSimilarity_le_one (a b : List ℝ) : cosineSimilarity a b ≤ 1 := by
  simp only [cosineSimilarity]
  split_ifs with h1 h2
  · exact zero_le_one
  · exact zero_le_one
  · push_neg at h1 h2
    have hA0 : 0 ≤ listDot a a := listDot_self_nonneg a
    have hB0 : 0 ≤ listDot b b := listDot_self_nonneg b
    have hA : 0 < listDot a a := lt_of_le_of_ne hA0 (Ne.symm h2.1)
    have hB : 0 < listDot b b := lt_of_le_of_ne hB0 (Ne.symm h2.2)
    have hsA : 0 < Real.sqrt (listDot a a) := Real.sqrt_pos.2 hA
    have hsB : 0 < Real.sqrt (listDot b b) := Real.sqrt_pos.2 hB
    rw [div_le_one (by positivity)]
    have hcs := Real.sum_mul_le_sqrt_mul_sqrt (Finset.range b.length)
      (fun i => a.getD i 0) (fun i => b.getD i 0)
    have hab : listDot a b = ∑ i ∈ Finset.range b.length,
        a.getD i 0 * b.getD i 0 := by
      rw [listDot_eq_sum_range, h1, min_self]
    have haa : listDot a a = ∑ i ∈ Finset.range b.length,
        a.getD i 0 ^ 2 := by
      rw [listDot_eq_sum_range, min_self, h1]
      exact Finset.sum_congr rfl (fun i _ => (sq (a.getD i 0)).symm)
    have hbb : listDot b b = ∑ i ∈ Finset.range b.length,
        b.getD i 0 ^ 2 := by
      rw [listDot_eq_sum_range, min_self]
      exact Finset.sum_congr rfl (fun i _ => (sq (b.getD i 0)).symm)
    rw [hab, haa, hbb]
    exact hcs

lemma checkForDuplicates_err (store : Store) (userID : String)
    (newVector : List ℝ) : (checkForDuplicates store userID newVector).2 = none := by
  simp only [checkForDuplicates]
  cases store.find userID with
  | none => rfl
  | some vs =>
    simp only
    split_ifs <;> rfl

lemma foldMax_bounds (newVector : List ℝ) (l : List FaceVector) (m : ℝ)
    (h0 : 0 ≤ m) (h1 : m ≤ 1) :
    0 ≤ l.foldl (fun maxSimilarity storedVector =>
        let similarity := cosineSimilarity newVector storedVector.vector
        if maxSimilarity < similarity then similarity else maxSimilarity) m ∧
      l.foldl (fun maxSimilarity storedVector =>
        let similarity := cosineSimilarity newVector storedVector.vector
        if maxSimilarity < similarity then similarity else maxSimilarity) m ≤ 1 := by
  induction l generalizing m with
  | nil => exact ⟨h0, h1⟩
  | cons v t ih =>
    simp only [List.foldl_cons]
    refine ih _ ?_ ?_
    · dsimp only
      split_ifs with h
      · exact le_of_lt (lt_of_le_of_lt h0 h)
      · exact h0
    · dsimp only
      split_ifs with h
      · exact cosineSimilarity_le_one _ _
      · exact h1

lemma checkForDuplicates_fst_nonneg (store : Store) (userID : String)
    (newVector : List ℝ) : 0 ≤ (checkForDuplicates store userID newVector).1 := by
  simp only [checkForDuplicates]
  cases store.find userID with
  | none => exact le_refl 0
  | some vs =>
    simp only
    split_ifs with h
    · exact le_refl 0
    · exact (foldMax_bounds newVector vs 0 (le_refl 0) zero_le_one).1

lemma checkForDuplicates_fst_le_one (store : Store) (userID : String)
    (newVector : List ℝ) : (checkForDuplicates store userID newVector).1 ≤ 1 := by
  simp only [checkForDuplicates]
  cases store.find userID with
  | none => exact zero_le_one
  | some vs =>
    simp only
    split_ifs with h
    · exact zero_le_one
    · exact (foldMax_bounds newVector vs 0 (le_refl 0) zero_le_one).2

lemma extractFramesFromVideo_snd (decode : List ℕ → Option Image)
    (videoData : List ℕ) : (extractFramesFromVideo decode videoData).2 = none := rfl

lemma extractFramesFromVideo_length (decode : List ℕ → Option Image)
    (videoData : List ℕ) : (extractFramesFromVideo decode videoData).1.length = 5 := by
  simp [extractFramesFromVideo]

lemma extractFramesFromVideo_ne_nil (decode : List ℕ → Option Image)
    (videoData : List ℕ) : (extractFramesFromVideo decode videoData).1 ≠ [] := by
  intro h
  have hl := extractFramesFromVideo_length decode videoData
  rw [h] at hl
  simp at hl

lemma VerifyVideo_recognize_ok (env : Env) (cfg : Config) (store : Store)
    (req : VerificationRequest) (vec : List ℝ)
    (hrec : env.recognize ((extractFramesFromVideo env.decode req.videoData).1.headI)
      = .ok vec) :
    VerifyVideo env cfg store req =
      (verifyCore cfg store req.userID
        (extractFramesFromVideo env.decode req.videoData).1 vec, none) := by
  simp only [extractFramesFromVideo, List.headI] at hrec ⊢
  simp only [VerifyVideo, extractFramesFromVideo, generateFaceVector, hrec]

lemma VerifyVideo_recognize_error (env : Env) (cfg : Config) (store : Store)
    (req : VerificationRequest) (e : String)
    (hrec : env.recognize ((extractFramesFromVideo env.decode req.videoData).1.headI)
      = .error e) :
    VerifyVideo env cfg store req =
      ({ userID := req.userID, verified := false, confidence := 0,
         livenessScore := 0,
         error := some ("Face vector generation failed: " ++ e) }, some e) := by
  simp only [extractFramesFromVideo, List.headI] at hrec ⊢
  simp only [VerifyVideo, extractFramesFromVideo, generateFaceVector, hrec]

lemma verifyCore_confidence_mem (cfg : Config) (store : Store) (userID : String)
    (frames : List Image) (faceVector : List ℝ) :
    0 ≤ (verifyCore cfg store userID frames faceVector).confidence ∧
      (verifyCore cfg store userID frames faceVector).confidence ≤ 1 := by
  simp only [verifyCore]
  split_ifs with h1 h2
  · rcases hcd : checkForDuplicates store userID faceVector with ⟨c, e⟩
    have hge := checkForDuplicates_fst_nonneg store userID faceVector
    have hle := checkForDuplicates_fst_le_one store userID faceVector
    rw [hcd] at hge hle
    cases e with
    | none => exact ⟨hge, hle⟩
    | some s => exact ⟨le_refl 0, zero_le_one⟩
  · exact ⟨zero_le_one, le_refl 1⟩
  · exact ⟨le_refl 0, zero_le_one⟩

lemma verifyCore_livenessScore_mem (cfg : Config) (store : Store) (userID : String)
    (frames : List Image) (faceVector : List ℝ) :
    0 ≤ (verifyCore cfg store userID frames faceVector).livenessScore ∧
      (verifyCore cfg store userID frames faceVector).livenessScore ≤ 1 := by
  have hs0 := detectLiveness_score_nonneg cfg.livenessThreshold frames
  have hs1 := detectLiveness_score_le_one cfg.livenessThreshold frames
  simp only [verifyCore]
  split_ifs with h1 h2
  · rcases hcd : checkForDuplicates store userID faceVector with ⟨c, e⟩
    cases e with
    | none => exact ⟨hs0, hs1⟩
    | some s => exact ⟨hs0, hs1⟩
  · exact ⟨hs0, hs1⟩
  · exact ⟨hs0, hs1⟩

/-- The Euclidean norm of an embedding vector, `math.Sqrt(norm)` in the
code. -/
noncomputable def euclNorm (a : List ℝ) : ℝ := Real.sqrt (listDot a a)

/-! ## Claim theorems -/

/-- C4: for all vectors `a` and `b`, `cosineSimilarity(a, b)` returns exactly
0.0 (not an error) whenever the lengths differ or either vector is all-zero;
otherwise it returns `dot(a,b)` divided by the product of the Euclidean
norms of `a` and `b`. -/
theorem C4_cosineSimilarity_spec (a b : List ℝ) :
    ((a.length ≠ b.length ∨ allZero a ∨ allZero b) → cosineSimilarity a b = 0) ∧
    (a.length = b.length → ¬ allZero a → ¬ allZero b →
      cosineSimilarity a b = listDot a b / (euclNorm a * euclNorm b)) := by
  constructor
  · intro h
    simp only [cosineSimilarity]
    split_ifs with h1 h2
    · rfl
    · rfl
    · exfalso
      push_neg at h2
      rcases h with h | h | h
      · exact h1 h
      · exact h2.1 ((listDot_self_eq_zero_iff a).2 h)
      · exact h2.2 ((listDot_self_eq_zero_iff b).2 h)
  · intro hlen hA hB
    simp only [cosineSimilarity, euclNorm]
    rw [if_neg (by simp [hlen]), if_neg]
    push_neg
    constructor
    · intro hz
      exact hA ((listDot_self_eq_zero_iff a).1 hz)
    · intro hz
      exact hB ((listDot_self_eq_zero_iff b).1 hz)

/-- Witness for C4 at a concrete input: the lengths of `[]` and `[0]`
differ, and the similarity is 0. -/
theorem C4_witness :
    (([] : List ℝ).length ≠ ([0] : List ℝ).length ∨ allZero ([] : List ℝ) ∨
        allZero ([0] : List ℝ)) ∧
      cosineSimilarity [] [0] = 0 :=
  ⟨Or.inl (by simp), (C4_cosineSimilarity_spec [] [0]).1 (Or.inl (by simp))⟩

/-- C5: for every frame sequence with fewer than 2 frames, `detectLiveness`
returns `isLive = false`, `score = 0`, `confidence = 0` and a nil error. -/
theorem C5_short_input (t : ℝ) (frames : List Image) (h : frames.length < 2) :
    detectLiveness t frames = (⟨false, 0, "motion_texture_analysis", 0⟩, none) := by
  simp only [detectLiveness, if_pos h]

/-- Witness for C5 at the empty frame sequence. -/
theorem C5_witness :
    ([] : List Image).length < 2 ∧
      detectLiveness 0 [] = (⟨false, 0, "motion_texture_analysis", 0⟩, none) :=
  ⟨by decide, C5_short_input 0 [] (by decide)⟩

/-- C6: for at least 2 frames, the liveness score equals
`0.4 * motionScore + 0.4 * textureConsistency + 0.2 * colorConsistency`, and
`isLive` holds exactly when the score is at least the configured liveness
threshold. -/
theorem C6_liveness_formula (t : ℝ) (frames : List Image)
    (h : 2 ≤ frames.length) :
    (detectLiveness t frames).1.score =
      0.4 * calculateMotionScore frames + 0.4 * calculateTextureConsistency frames +
        0.2 * calculateColorConsistency frames ∧
    ((detectLiveness t frames).1.isLive = true ↔
      t ≤ (detectLiveness t frames).1.score) := by
  have hnl : ¬ frames.length < 2 := not_lt.2 h
  simp only [detectLiveness, if_neg hnl]
  constructor
  · ring
  · rw [boolGe_true_iff]

/-- Witness for C6 at a concrete 2-frame sequence. -/
theorem C6_witness :
    2 ≤ ([placeholderImage, placeholderImage] : List Image).length ∧
      ((detectLiveness 0 [placeholderImage, placeholderImage]).1.isLive = true ↔
        (0 : ℝ) ≤ (detectLiveness 0 [placeholderImage, placeholderImage]).1.score) :=
  ⟨by decide,
    (C6_liveness_formula 0 [placeholderImage, placeholderImage] (by decide)).2⟩

/-- C10: for every decoder outcome and input byte sequence,
`extractFramesFromVideo` returns a nil error and exactly 5 frames, so the
`no frames extracted` branch of `VerifyVideo` is unreachable. -/
theorem C10_extract_frames_total (decode : List ℕ → Option Image)
    (videoData : List ℕ) :
    (extractFramesFromVideo decode videoData).2 = none ∧
      (extractFramesFromVideo decode videoData).1.length = 5 :=
  ⟨extractFramesFromVideo_snd decode videoData,
    extractFramesFromVideo_length decode videoData⟩

/-- Modelled from the spec's words, for comparison with the code: the true
maximum of `cosineSimilarity(newVector, v)` over all stored embeddings `v`
of an identity (no clamping). -/
noncomputable def specMaxSimilarity (newVector : List ℝ)
    (userVectors : List FaceVector) : ℝ :=
  match userVectors.map (fun sv => cosineSimilarity newVector sv.vector) with
  | [] => 0
  | s :: rest => rest.foldl max s

lemma ite_lt_eq_max (m s : ℝ) : (if m < s then s else m) = max m s := by
  split_ifs with h
  · exact (max_eq_right h.le).symm
  · exact (max_eq_left (not_lt.1 h)).symm

lemma foldl_max_init (l : List ℝ) (a b : ℝ) :
    l.foldl max (max a b) = max a (l.foldl max b) := by
  induction l generalizing b with
  | nil => rfl
  | cons x t ih =>
    simp only [List.foldl_cons]
    rw [max_assoc, ih]

lemma foldl_sim_eq_foldl_max (newVector : List ℝ) (l : List FaceVector) (m : ℝ) :
    l.foldl (fun maxSimilarity storedVector =>
      let similarity := cosineSimilarity newVector storedVector.vector
      if maxSimilarity < similarity then similarity else maxSimilarity) m =
    (l.map (fun sv => cosineSimilarity newVector sv.vector)).foldl max m := by
  induction l generalizing m with
  | nil => rfl
  | cons v t ih =>
    simp only [List.foldl_cons, List.map_cons]
    rw [← ih]
    congr 1
    exact ite_lt_eq_max m (cosineSimilarity newVector v.vector)

/-- One stored enrollment used by the C3 counterexample: identity `u` with
the one-dimensional embedding `[1]`. -/
noncomputable def storedUnit : FaceVector := ⟨"u", [1], 0, "1.0"⟩

lemma cosine_neg_unit : cosineSimilarity [-1] [1] = -1 := by
  have hd : listDot [-1] [1] = (-1 : ℝ) := by
    simp [listDot]
  have ha : listDot [-1] [-1] = (1 : ℝ) := by
    simp [listDot]
  have hb : listDot [1] [1] = (1 : ℝ) := by
    simp [listDot]
  simp only [cosineSimilarity, List.length_cons, List.length_nil, ne_eq]
  rw [if_neg (by simp), hd, ha, hb, if_neg (by norm_num)]
  rw [Real.sqrt_one]
  norm_num

/-- C3 counterexample: for the store that enrolls `[1]` under identity `u`
and the probe vector `[-1]`, every cosine similarity is negative (`-1`), but
`checkForDuplicates` reports 0, not the maximum `-1`: the claimed equality
with the maximum fails when all similarities are negative. -/
theorem C3_counterexample :
    (checkForDuplicates [("u", [storedUnit])] "u" [-1]).1 = 0 ∧
      specMaxSimilarity [-1] [storedUnit] = -1 ∧
      (checkForDuplicates [("u", [storedUnit])] "u" [-1]).1 ≠
        specMaxSimilarity [-1] [storedUnit] := by
  have hfind : Store.find [("u", [storedUnit])] "u" = some [storedUnit] := rfl
  have hmax : specMaxSimilarity [-1] [storedUnit] = -1 := by
    simp only [specMaxSimilarity, storedUnit, List.map_cons, List.map_nil,
      List.foldl_nil]
    exact cosine_neg_unit
  have hdup : (checkForDuplicates [("u", [storedUnit])] "u" [-1]).1 = 0 := by
    simp only [checkForDuplicates, hfind]
    rw [if_neg (by simp)]
    simp only [List.foldl_cons, List.foldl_nil, storedUnit]
    rw [cosine_neg_unit, if_neg (by norm_num)]
  refine ⟨hdup, hmax, ?_⟩
  rw [hdup, hmax]
  norm_num

/-- C3 amended: for a claimed identity with at least one stored embedding,
`checkForDuplicates` reports the maximum cosine similarity clamped below at
0 (the accumulator starts at 0, so an all-negative set of similarities
reports 0 rather than the true maximum). -/
theorem C3_amended_max_clamped (store : Store) (userID : String)
    (newVector : List ℝ) (userVectors : List FaceVector)
    (hfind : store.find userID = some userVectors) (hne : userVectors ≠ []) :
    (checkForDuplicates store userID newVector).1 =
      max 0 (specMaxSimilarity newVector userVectors) := by
  simp only [checkForDuplicates, hfind]
  rw [if_neg (by simpa using hne)]
  rcases userVectors with _ | ⟨v, t⟩
  · exact absurd rfl hne
  · rw [foldl_sim_eq_foldl_max]
    simp only [specMaxSimilarity, List.map_cons, List.foldl_cons]
    exact foldl_max_init _ 0 _

/-- Witness for C3 (amended) at a concrete store. -/
theorem C3_witness :
    (Store.find [("w", [storedUnit])] "w" = some [storedUnit]) ∧
      ([storedUnit] : List FaceVector) ≠ [] ∧
      (checkForDuplicates [("w", [storedUnit])] "w" [1]).1 =
        max 0 (specMaxSimilarity [1] [storedUnit]) :=
  ⟨rfl, by simp,
    C3_amended_max_clamped [("w", [storedUnit])] "w" [1] [storedUnit] rfl (by simp)⟩

/-- C7: for every plaintext and every keyed authenticated cipher satisfying
the standard seal/open inverse property of AES-GCM (the external crypto
primitive), `decryptData(encryptData(data))` with the same derived key
returns exactly the original bytes: the nonce prepended by `encryptData` is
split off and recovered by `decryptData`. -/
theorem C7_encrypt_decrypt_roundtrip (gcm : GCM) (nonce data : List ℕ)
    (hn : nonce.length = gcm.nonceSize)
    (hcorrect : ∀ n d, gcm.openBytes n (gcm.sealBytes n d) = .ok d) :
    decryptData gcm (encryptData gcm nonce data) = .ok data := by
  simp only [encryptData, decryptData]
  rw [if_neg, ← hn, List.take_left, List.drop_left]
  · exact hcorrect nonce data
  · push_neg
    rw [List.length_append, ← hn]
    omega

/-- Witness for C7 with a concrete cipher and payload. -/
theorem C7_witness :
    (([0] : List ℕ).length = (1 : ℕ)) ∧
      (∀ n d, (⟨1, fun _ d => d, fun _ c => Except.ok c⟩ : GCM).openBytes n
        ((⟨1, fun _ d => d, fun _ c => Except.ok c⟩ : GCM).sealBytes n d) =
          Except.ok d) ∧
      decryptData ⟨1, fun _ d => d, fun _ c => Except.ok c⟩
        (encryptData ⟨1, fun _ d => d, fun _ c => Except.ok c⟩ [0] [1, 2]) =
          Except.ok [1, 2] :=
  ⟨rfl, fun _ _ => rfl,
    C7_encrypt_decrypt_roundtrip ⟨1, fun _ d => d, fun _ c => Except.ok c⟩
      [0] [1, 2] rfl (fun _ _ => rfl)⟩

/-- C8 counterexample: a payload of exactly 1024 bytes (not strictly between
1KB and 50MB) with an allow-listed content type is accepted by
`validateVideoFile`, refuting the claim's strict bounds. -/
theorem C8_counterexample :
    validateVideoFile ⟨1024, "video/mp4"⟩ = none ∧ ¬ ((1024 : ℤ) < 1024) := by
  constructor
  · rfl
  · decide

/-- C8 amended: `validateVideoFile` accepts exactly the files whose size
lies in the inclusive range `[1024, 50*1024*1024]` with an allow-listed
content type (so 50MB+1 bytes or fewer than 1KB are rejected), and any
rejected file makes the verify handler answer `INVALID_VIDEO_FILE` before
the face service is consulted (the response does not depend on the service). -/
theorem C8_amended_validate_bounds :
    (∀ file : FileHeader, validateVideoFile file = none ↔
      (1024 ≤ file.size ∧ file.size ≤ 50 * 1024 * 1024 ∧
        file.contentType ∈ validTypes)) ∧
    (∀ (service : VerificationRequest → VerificationResult × Option String)
      (file : FileHeader) (rest : List FileHeader) (videoData : List ℕ)
      (userID sessionID : String), validateVideoFile file ≠ none →
        handleVerifyVideo service (file :: rest) videoData userID sessionID =
          .badRequest ("INVALID_VIDEO_FILE")) := by
  constructor
  · intro file
    simp only [validateVideoFile]
    split_ifs with h1 h2 h3
    · simp only [reduceCtorEq, false_iff, not_and]
      intro _ hle
      omega
    · simp only [reduceCtorEq, false_iff, not_and]
      intro hge
      omega
    · simp only [true_iff]
      exact ⟨by omega, by omega, h3⟩
    · simp only [reduceCtorEq, false_iff, not_and]
      intro _ _ hmem
      exact h3 hmem
  · intro service file rest videoData userID sessionID hbad
    simp only [handleVerifyVideo]
    cases hv : validateVideoFile file with
    | none => exact absurd hv hbad
    | some e => simp only [hv]

/-- Witness for C8 (amended): a 0-byte file is rejected and the handler
answers `INVALID_VIDEO_FILE`. -/
theorem C8_witness :
    validateVideoFile ⟨0, "video/mp4"⟩ ≠ none ∧
      handleVerifyVideo (fun _ => (⟨"", false, 0, 0, none⟩, none))
        [⟨0, "video/mp4"⟩] [] "" "" = .badRequest ("INVALID_VIDEO_FILE") :=
  ⟨by decide,
    C8_amended_validate_bounds.2 (fun _ => (⟨"", false, 0, 0, none⟩, none))
      ⟨0, "video/mp4"⟩ [] [] "" "" (by decide)⟩

/-- C9: every `VerifyVideo` result returned with a nil error has
`confidence` in `[0,1]` and `livenessScore` in `[0,1]`. -/
theorem C9_result_bounds (env : Env) (cfg : Config) (store : Store)
    (req : VerificationRequest)
    (h : (VerifyVideo env cfg store req).2 = none) :
    0 ≤ (VerifyVideo env cfg store req).1.confidence ∧
      (VerifyVideo env cfg store req).1.confidence ≤ 1 ∧
      0 ≤ (VerifyVideo env cfg store req).1.livenessScore ∧
      (VerifyVideo env cfg store req).1.livenessScore ≤ 1 := by
  cases hrec : env.recognize
      ((extractFramesFromVideo env.decode req.videoData).1.headI) with
  | error e =>
    rw [VerifyVideo_recognize_error env cfg store req e hrec]
    norm_num
  | ok vec =>
    rw [VerifyVideo_recognize_ok env cfg store req vec hrec]
    have h1 := verifyCore_confidence_mem cfg store req.userID
      (extractFramesFromVideo env.decode req.videoData).1 vec
    have h2 := verifyCore_livenessScore_mem cfg store req.userID
      (extractFramesFromVideo env.decode req.videoData).1 vec
    exact ⟨h1.1, h1.2, h2.1, h2.2⟩

/-- A sample environment for concrete evaluations: the payload never decodes
(so the placeholder frames are used) and the recognizer backend always
returns the one-dimensional embedding `[1]`. -/
noncomputable def sampleEnv : Env := ⟨fun _ => none, fun _ => .ok [1]⟩

/-- Witness for C9 at a concrete request that completes with a nil error. -/
theorem C9_witness :
    (VerifyVideo sampleEnv ⟨0.85, 0.75⟩ [] ⟨[], "", ""⟩).2 = none ∧
      0 ≤ (VerifyVideo sampleEnv ⟨0.85, 0.75⟩ [] ⟨[], "", ""⟩).1.confidence ∧
      (VerifyVideo sampleEnv ⟨0.85, 0.75⟩ [] ⟨[], "", ""⟩).1.confidence ≤ 1 ∧
      0 ≤ (VerifyVideo sampleEnv ⟨0.85, 0.75⟩ [] ⟨[], "", ""⟩).1.livenessScore ∧
      (VerifyVideo sampleEnv ⟨0.85, 0.75⟩ [] ⟨[], "", ""⟩).1.livenessScore ≤ 1 := by
  have hnone : (VerifyVideo sampleEnv ⟨0.85, 0.75⟩ [] ⟨[], "", ""⟩).2 = none := by
    rw [VerifyVideo_recognize_ok sampleEnv ⟨0.85, 0.75⟩ [] ⟨[], "", ""⟩ [1] rfl]
  obtain ⟨a, b, c, d⟩ := C9_result_bounds sampleEnv ⟨0.85, 0.75⟩ [] ⟨[], "", ""⟩ hnone
  exact ⟨hnone, a, b, c, d⟩

lemma detectLiveness_isLive_of_nonpos (t : ℝ) (frames : List Image)
    (h2 : 2 ≤ frames.length) (ht : t ≤ 0) :
    (detectLiveness t frames).1.isLive = true := by
  have hm := calculateMotionScore_nonneg frames
  have htx := calculateTextureConsistency_nonneg frames
  have hc := calculateColorConsistency_nonneg frames
  simp only [detectLiveness, if_neg (not_lt.2 h2)]
  rw [boolGe_true_iff]
  nlinarith

lemma verifyCore_unenrolled (cfg : Config) (store : Store) (userID : String)
    (frames : List Image) (vec : List ℝ)
    (hlive : (detectLiveness cfg.livenessThreshold frames).1.isLive = true)
    (huid : ¬ userID = "") (hfind : Store.find store userID = none) :
    (verifyCore cfg store userID frames vec).verified =
        boolGe 0 cfg.similarityThreshold ∧
      (verifyCore cfg store userID frames vec).confidence = 0 := by
  have hcd : checkForDuplicates store userID vec = (0, none) := by
    simp only [checkForDuplicates, hfind]
  simp [verifyCore, hlive, hcd, huid]

/-- C1 (code evaluation at the failing input): a request that claims the
not-yet-enrolled identity `alice` against an empty store and passes liveness
(threshold 0) completes with a nil error but `verified = false` and
`confidence = 0` — not the claimed `verified = true`, `confidence = 1.0`:
`checkForDuplicates` reports similarity 0 for an identity without
enrollments and 0 is below the similarity threshold 0.75. -/
theorem C1_unenrolled_claimed_identity :
    (VerifyVideo sampleEnv ⟨0, 0.75⟩ [] ⟨[], "alice", ""⟩).2 = none ∧
      (VerifyVideo sampleEnv ⟨0, 0.75⟩ [] ⟨[], "alice", ""⟩).1.verified = false ∧
      (VerifyVideo sampleEnv ⟨0, 0.75⟩ [] ⟨[], "alice", ""⟩).1.confidence = 0 := by
  have hok := VerifyVideo_recognize_ok sampleEnv ⟨0, 0.75⟩ [] ⟨[], "alice", ""⟩ [1] rfl
  have hlen : 2 ≤ (extractFramesFromVideo sampleEnv.decode ([] : List ℕ)).1.length := by
    rw [extractFramesFromVideo_length]
    norm_num
  have hlive := detectLiveness_isLive_of_nonpos 0 _ hlen (le_refl 0)
  have hcore := verifyCore_unenrolled ⟨0, 0.75⟩ [] "alice"
    (extractFramesFromVideo sampleEnv.decode ([] : List ℕ)).1 [1] hlive
    (by decide) rfl
  have hbg : boolGe (0 : ℝ) 0.75 = false := by
    rw [boolGe_false_iff]
    norm_num
  rw [hok]
  refine ⟨rfl, ?_, hcore.2⟩
  rw [hcore.1, hbg]

/-- C2 (code evaluation at the failing input): `RegisterFace` on the
not-yet-enrolled identity `alice` (liveness passing, threshold 0) fails with
`face verification failed` and leaves the store unchanged, so the
register-then-verify round-trip can never start on a fresh identity. -/
theorem C2_register_fails_on_fresh_identity :
    (RegisterFace sampleEnv ⟨0, 0.75⟩ [] "alice" []).1 = [] ∧
      (RegisterFace sampleEnv ⟨0, 0.75⟩ [] "alice" []).2 =
        some ("face verification failed") := by
  have hok := VerifyVideo_recognize_ok sampleEnv ⟨0, 0.75⟩ [] ⟨[], "alice", ""⟩ [1] rfl
  have hlen : 2 ≤ (extractFramesFromVideo sampleEnv.decode ([] : List ℕ)).1.length := by
    rw [extractFramesFromVideo_length]
    norm_num
  have hlive := detectLiveness_isLive_of_nonpos 0 _ hlen (le_refl 0)
  have hcore := verifyCore_unenrolled ⟨0, 0.75⟩ [] "alice"
    (extractFramesFromVideo sampleEnv.decode ([] : List ℕ)).1 [1] hlive
    (by decide) rfl
  have hbg : boolGe (0 : ℝ) 0.75 = false := by
    rw [boolGe_false_iff]
    norm_num
  have hv : (verifyCore ⟨0, 0.75⟩ [] "alice"
      (extractFramesFromVideo sampleEnv.decode ([] : List ℕ)).1 [1]).verified
        = false := by
    rw [hcore.1, hbg]
  simp only [RegisterFace, hok, hv]
  exact ⟨rfl, rfl⟩

end ConnectHub
